import Mathlib

/-!
Shallow embedding of the copernicus-downloader scheduling core
(src/copernicus_downloader/incremental.py, main.py, storage.py).

Modelling conventions:
- Calendar dates are the structure Date (year, month, day in Nat), with
  Gregorian leap-year arithmetic mirroring the Python date / calendar modules.
- Storage is the set of committed keys, represented as a List String queried
  with contains; Storage.exists(key) becomes st.contains key, and
  storage.save adds the key.
- The provider client (cdsapi.Client.retrieve) is an oracle
  String -> Outcome giving, per storage key, the classification of the call:
  success, a structured HTTP error whose message contains the phrase
  not available yet, a structured HTTP error with another message, or an
  HTTP error without a structured body.
- Exceptions are explicit: safe_retrieve returns a RetrieveRes value saying
  whether it returned True, returned False, raised requests.HTTPError, or
  raised RuntimeError; the download loops dispatch on that value exactly as
  the try/except blocks in incremental.py do.
- A run produces a trace of events (provider calls and storage saves), the
  final storage state, and a RunResult describing how the loop ended.
-/

namespace Copernicus

/-- Calendar date, mirroring datetime.date. -/
structure Date where
  year : Nat
  month : Nat
  day : Nat
deriving DecidableEq, Repr

/-- Gregorian leap-year test, as in calendar.isleap. -/
def isLeap (y : Nat) : Bool :=
  y % 4 == 0 && (y % 100 != 0 || y % 400 == 0)

/-- Number of days in a month, as returned by calendar.monthrange(year, month)[1]. -/
def daysInMonth (y m : Nat) : Nat :=
  if m == 2 then (if isLeap y then 29 else 28)
  else if m == 4 || m == 6 || m == 9 || m == 11 then 30
  else 31

/-- Successor day, mirroring date + timedelta(days=1). -/
def nextDate (d : Date) : Date :=
  if d.day < daysInMonth d.year d.month then ⟨d.year, d.month, d.day + 1⟩
  else if d.month < 12 then ⟨d.year, d.month + 1, 1⟩
  else ⟨d.year + 1, 1, 1⟩

/-- Predecessor day, mirroring date - timedelta(days=1). -/
def prevDate (d : Date) : Date :=
  if 1 < d.day then ⟨d.year, d.month, d.day - 1⟩
  else if 1 < d.month then ⟨d.year, d.month - 1, daysInMonth d.year (d.month - 1)⟩
  else ⟨d.year - 1, 12, 31⟩

/-- Date plus n days. -/
def addDays (s : Date) : Nat → Date
  | 0 => s
  | n + 1 => nextDate (addDays s n)

/-- Date minus n days; models date - timedelta(days=n). -/
def subDays (d : Date) : Nat → Date
  | 0 => d
  | n + 1 => prevDate (subDays d n)

/-- Days of the year strictly before month m (cumulative month lengths). -/
def daysBeforeMonth (y : Nat) : Nat → Nat
  | 0 => 0
  | m + 1 => if m = 0 then 0 else daysBeforeMonth y m + daysInMonth y m

/-- Rata-die style day number of a date, used to compute (end - start).days. -/
def toDays (d : Date) : Nat :=
  365 * (d.year - 1) + (d.year - 1) / 4 + (d.year - 1) / 400
    - (d.year - 1) / 100 + daysBeforeMonth d.year d.month + d.day

/-- Strict lexicographic order on dates. -/
def dateLt (a b : Date) : Prop :=
  a.year < b.year ∨ (a.year = b.year ∧
    (a.month < b.month ∨ (a.month = b.month ∧ a.day < b.day)))

instance (a b : Date) : Decidable (dateLt a b) := by
  unfold dateLt; infer_instance

/-- Reflexive closure of dateLt. -/
def dateLe (a b : Date) : Prop := dateLt a b ∨ a = b

instance (a b : Date) : Decidable (dateLe a b) := by
  unfold dateLe; infer_instance

/-- The generator daterange(start, end) of incremental.py: one date per day
from start to end inclusive, empty when end is before start; the loop count
is (end - start).days + 1 as in the source. -/
def daterange (s e : Date) : List Date :=
  (List.range (toDays e + 1 - toDays s)).map (addDays s)

/-- Two-digit zero padding, mirroring the format f"\x7bn:02d\x7d". -/
def pad2 (n : Nat) : String :=
  if n < 10 then "0" ++ toString n else toString n

/-- Numeric parse of a month or day string; models int(m) on the numeric
strings that appear in request templates, by folding over the digits. -/
def toNatD (s : String) : Nat :=
  s.data.foldl (fun n c => n * 10 + (c.toNat - 48)) 0

/-- ISO format YYYY-MM-DD of a date (for the four-digit years in use). -/
def isoformat (d : Date) : String :=
  toString d.year ++ "-" ++ pad2 d.month ++ "-" ++ pad2 d.day

/-- The function ensure_months: absent or empty month list defaults to the
twelve two-digit month strings. -/
def ensure_months (ms : List String) : List String :=
  if ms.isEmpty then (List.range' 1 12).map pad2 else ms

/-- The function ensure_days: absent or empty day list defaults to the
thirty-one two-digit day strings. -/
def ensure_days (ds : List String) : List String :=
  if ds.isEmpty then (List.range' 1 31).map pad2 else ds

/-- Provider request payload: the date-bearing fields merged onto a template,
as built by the dict unions in incremental.py. Non-date template entries do
not influence scheduling and are not modelled. -/
structure Request where
  year : List Nat := []
  month : List String := []
  day : List String := []
  date : List String := []
deriving DecidableEq, Repr

/-- The function build_request: payload for a daily unit. -/
def build_request (tmpl : Request) (d : Date) (use_range : Bool) : Request :=
  if use_range then
    { tmpl with date := [isoformat d ++ "/" ++ isoformat d] }
  else
    { tmpl with year := [d.year], month := [pad2 d.month], day := [pad2 d.day] }

/-- The function build_monthly_request: payload for a monthly unit; in range
mode the interval runs from day 01 to calendar.monthrange(year, month)[1]. -/
def build_monthly_request (tmpl : Request) (year month : Nat) (use_range : Bool) : Request :=
  if use_range then
    { tmpl with date :=
        [toString year ++ "-" ++ pad2 month ++ "-01/" ++
         toString year ++ "-" ++ pad2 month ++ "-" ++ pad2 (daysInMonth year month)] }
  else
    { tmpl with year := [year], month := [pad2 month],
                day := (List.range' 1 31).map pad2 }

/-- Classification of one provider call, per section 4.4 of the spec:
success; a structured error whose message contains the phrase
not available yet; a structured error with any other message; or an
HTTP error carrying no structured body. -/
inductive Outcome where
  | success
  | notYetAvailable
  | fatalStructured
  | fatalTransport
deriving DecidableEq, Repr

/-- Observable result of safe_retrieve: returned True, returned False,
raised requests.HTTPError, or raised RuntimeError. -/
inductive RetrieveRes where
  | ok
  | returnedFalse
  | raisedHTTPError
  | raisedRuntimeError
deriving DecidableEq, Repr

/-- The function safe_retrieve of incremental.py. On a structured
not-available-yet message it returns False when fail_on_error is False and
otherwise re-raises the original HTTPError; on another structured message it
raises RuntimeError when fail_on_error is True, else returns False; on an
unstructured HTTPError it re-raises when fail_on_error is True, else
returns False. -/
def safe_retrieve (o : Outcome) (fail_on_error : Bool) : RetrieveRes :=
  match o with
  | Outcome.success => RetrieveRes.ok
  | Outcome.notYetAvailable =>
      if fail_on_error then RetrieveRes.raisedHTTPError else RetrieveRes.returnedFalse
  | Outcome.fatalStructured =>
      if fail_on_error then RetrieveRes.raisedRuntimeError else RetrieveRes.returnedFalse
  | Outcome.fatalTransport =>
      if fail_on_error then RetrieveRes.raisedHTTPError else RetrieveRes.returnedFalse

/-- The function already_requested: the sidecar metadata key exists. -/
def already_requested (st : List String) (key : String) : Bool :=
  st.contains (key ++ ".json")

/-- Trace event: a provider call for a unit key, or a storage.save commit. -/
inductive Ev where
  | call (key : String)
  | save (key : String)
deriving DecidableEq, Repr

/-- Loop control after one unit: continue, break out of the enclosing loop,
or let a RuntimeError propagate. -/
inductive Ctl where
  | next
  | stop
  | abort
deriving DecidableEq, Repr

/-- Final state of one dataset run: loop finished, loop left early by break,
or an exception propagated out of incremental_download. -/
inductive RunResult where
  | completed
  | halted
  | aborted
deriving DecidableEq, Repr

/-- Per-unit body shared verbatim by the yearly, monthly and daily branches
of incremental_download: skip when the primary key or the sidecar key exists;
otherwise call the provider; on True commit the sidecar then the primary; on
False break when fail_on_error else continue; a raised HTTPError is caught by
the except clause and breaks; a raised RuntimeError propagates. -/
def processUnit (oracle : String → Outcome) (fe : Bool) (st : List String)
    (key : String) : List Ev × List String × Ctl :=
  if st.contains key || already_requested st key then
    ([], st, Ctl.next)
  else
    match safe_retrieve (oracle key) fe with
    | RetrieveRes.ok =>
        ([Ev.call key, Ev.save (key ++ ".json"), Ev.save key],
         key :: (key ++ ".json") :: st, Ctl.next)
    | RetrieveRes.returnedFalse =>
        if fe then ([Ev.call key], st, Ctl.stop) else ([Ev.call key], st, Ctl.next)
    | RetrieveRes.raisedHTTPError => ([Ev.call key], st, Ctl.stop)
    | RetrieveRes.raisedRuntimeError => ([Ev.call key], st, Ctl.abort)

/-- One flat download loop over an ordered key list (the yearly and daily
branches, and the inner month loop of the monthly branch). -/
def runUnits (oracle : String → Outcome) (fe : Bool) :
    List String → List String → List Ev × List String × RunResult
  | st, [] => ([], st, RunResult.completed)
  | st, k :: rest =>
    let p := processUnit oracle fe st k
    match p.2.2 with
    | Ctl.next =>
        let q := runUnits oracle fe p.2.1 rest
        (p.1 ++ q.1, q.2.1, q.2.2)
    | Ctl.stop => (p.1, p.2.1, RunResult.halted)
    | Ctl.abort => (p.1, p.2.1, RunResult.aborted)

/-- The nested monthly branch: the outer year loop continues after an inner
break (only RuntimeError stops the outer loop), because the break statement
in the month loop leaves only that inner loop. -/
def runMonthlyYears (oracle : String → Outcome) (fe : Bool) :
    List String → List (List String) → List Ev × List String × RunResult
  | st, [] => ([], st, RunResult.completed)
  | st, yks :: rest =>
    let p := runUnits oracle fe st yks
    match p.2.2 with
    | RunResult.aborted => (p.1, p.2.1, RunResult.aborted)
    | _ =>
        let q := runMonthlyYears oracle fe p.2.1 rest
        (p.1 ++ q.1, q.2.1, q.2.2)

/-- Minimum of a list of years, as min(years) in incremental_download. -/
def minList : List Nat → Nat
  | [] => 0
  | [x] => x
  | x :: y :: t => Nat.min x (minList (y :: t))

/-- Yearly keys in loop order: range(start_year, today.year + 1) with the
in-loop guard skipping years past today.year, key f-string dataset/year.grib. -/
def yearlyKeys (name : String) (startYear : Nat) (today : Date) : List String :=
  ((List.range' startYear (today.year + 1 - startYear)).filter
      (fun y => !(today.year < y))).map
    (fun y => name ++ "/" ++ toString y ++ ".grib")

/-- Month keys of one year of the monthly branch, iterating the template
month strings in template order, skipping months after today in the current
year; key f-string dataset/year/m.grib with the raw template string m. -/
def monthKeysFor (name : String) (today : Date) (months : List String)
    (y : Nat) : List String :=
  (months.filter
      (fun m => !(today.year < y || (y == today.year && today.month < toNatD m)))).map
    (fun m => name ++ "/" ++ toString y ++ "/" ++ m ++ ".grib")

/-- Year-indexed key lists for the monthly branch. -/
def monthlyYearKeys (name : String) (startYear : Nat) (today : Date)
    (months : List String) : List (List String) :=
  (List.range' startYear (today.year + 1 - startYear)).map
    (monthKeysFor name today months)

/-- Daily keys in loop order: daterange(start_date, today) filtered by string
membership of the padded month and day in the template lists; key f-string
dataset/year/month/day.grib. -/
def dailyKeys (name : String) (startDate today : Date)
    (months days : List String) : List String :=
  ((daterange startDate today).filter
      (fun d => months.contains (pad2 d.month) && days.contains (pad2 d.day))).map
    (fun d => name ++ "/" ++ toString d.year ++ "/" ++ pad2 d.month ++ "/" ++
      pad2 d.day ++ ".grib")

/-- Dataset configuration fields consumed by incremental_download. The
date_format field only affects request payloads, not scheduling, so it is
carried by the request builders instead. -/
structure Cfg where
  name : String
  granularity : String := "yearly"
  reqMonth : List String := []
  reqDay : List String := []
  minDate : Option Date := none
  lagDays : Nat := 0
  failOnError : Bool := true

/-- Start date of incremental_download: January 1 of the earliest configured
year, replaced by min_date when min_date is set and later. -/
def effectiveStart (startYear : Nat) (minDate : Option Date) : Date :=
  let startDate0 : Date := ⟨startYear, 1, 1⟩
  match minDate with
  | some md => if dateLt startDate0 md then md else startDate0
  | none => startDate0

/-- The function incremental_download: computes start_year = min(years),
clamps start_date by min_date when min_date is later, applies lag_days to
today, normalizes the template month and day lists, and dispatches on
granularity. An unsupported granularity raises ValueError, modelled as the
propagating abort result. -/
def incremental_download (cfg : Cfg) (years : List Nat) (todayClock : Date)
    (oracle : String → Outcome) (storage : List String) :
    List Ev × List String × RunResult :=
  let startYear := minList years
  let startDate := effectiveStart startYear cfg.minDate
  let today := if 0 < cfg.lagDays then subDays todayClock cfg.lagDays else todayClock
  let months := ensure_months cfg.reqMonth
  let days := ensure_days cfg.reqDay
  let fe := cfg.failOnError
  if cfg.granularity == "yearly" then
    runUnits oracle fe storage (yearlyKeys cfg.name startYear today)
  else if cfg.granularity == "monthly" then
    runMonthlyYears oracle fe storage (monthlyYearKeys cfg.name startYear today months)
  else if cfg.granularity == "daily" then
    runUnits oracle fe storage (dailyKeys cfg.name startDate today months days)
  else
    ([], storage, RunResult.aborted)

/-- The dataset loop of main.py: unknown names are logged and skipped; a
known dataset is run with incremental_download; there is no try block around
the call, so a propagating error ends the loop. Returns the names actually
run, the final storage, and whether an abort escaped. -/
def mainLoop (cfgs : List (String × Cfg)) (years : List Nat) (todayClock : Date)
    (oracle : String → Outcome) :
    List String → List String → List String × List String × Bool
  | st, [] => ([], st, false)
  | st, n :: rest =>
    match List.lookup n cfgs with
    | none => mainLoop cfgs years todayClock oracle st rest
    | some cfg =>
      let p := incremental_download cfg years todayClock oracle st
      match p.2.2 with
      | RunResult.aborted => ([n], p.2.1, true)
      | _ =>
        let q := mainLoop cfgs years todayClock oracle p.2.1 rest
        (n :: q.1, q.2.1, q.2.2)

/-- Fetch granule: year with optional month and day (wildcards at coarser
granularity). -/
structure TimeUnit where
  year : Nat
  month : Option Nat
  day : Option Nat
deriving DecidableEq, Repr

/-- Month component with wildcard read as minimal. -/
def TimeUnit.mo (u : TimeUnit) : Nat := u.month.getD 0

/-- Day component with wildcard read as minimal. -/
def TimeUnit.da (u : TimeUnit) : Nat := u.day.getD 0

/-- Strict order on TimeUnit by (year, month, day), wildcards minimal. -/
def tuLt (u v : TimeUnit) : Prop :=
  u.year < v.year ∨ (u.year = v.year ∧
    (u.mo < v.mo ∨ (u.mo = v.mo ∧ u.da < v.da)))

instance (u v : TimeUnit) : Decidable (tuLt u v) := by
  unfold tuLt; infer_instance

/-- TimeUnit sequence of the yearly branch, in loop order. -/
def yearlyUnits (startYear : Nat) (today : Date) : List TimeUnit :=
  ((List.range' startYear (today.year + 1 - startYear)).filter
      (fun y => !(today.year < y))).map
    (fun y => ⟨y, none, none⟩)

/-- TimeUnit sequence of the monthly branch, in loop order: years ascending,
months in template order, months after today skipped in the current year. -/
def monthlyUnits (startYear : Nat) (today : Date) (months : List String) :
    List TimeUnit :=
  (List.range' startYear (today.year + 1 - startYear)).flatMap (fun y =>
    (months.filter
        (fun m => !(today.year < y || (y == today.year && today.month < toNatD m)))).map
      (fun m => ⟨y, some (toNatD m), none⟩))

/-- TimeUnit sequence of the daily branch, in loop order. -/
def dailyUnits (startDate today : Date) (months days : List String) :
    List TimeUnit :=
  ((daterange startDate today).filter
      (fun d => months.contains (pad2 d.month) && days.contains (pad2 d.day))).map
    (fun d => ⟨d.year, some d.month, some d.day⟩)

/-! Concrete scenarios used to settle individual claims. -/

/-- Provider behavior for the monthly halt scenario: the request for January
2020 is answered with a structured not-available-yet error, every other
request succeeds. -/
def oracleNyaJan2020 (k : String) : Outcome :=
  if k == "ds/2020/01.grib" then Outcome.notYetAvailable else Outcome.success

/-- Monthly dataset with default template and fail_on_error left true. -/
def cfgMonthlyDs : Cfg := { name := "ds", granularity := "monthly" }

/-- Provider behavior returning an HTTP error without a structured body for
every request. -/
def oracleTransport (_ : String) : Outcome := Outcome.fatalTransport

/-- Yearly dataset with fail_on_error left true. -/
def cfgYearlyD : Cfg := { name := "d", granularity := "yearly" }

/-- Provider behavior where every request succeeds. -/
def oracleAllOk (_ : String) : Outcome := Outcome.success

/-- Yearly dataset with a min_date after the configured start. -/
def cfgYearlyMinDate : Cfg :=
  { name := "d", granularity := "yearly", minDate := some ⟨2021, 6, 1⟩ }

/-- Monthly dataset whose template restricts the month list to March. -/
def cfgMonthlyMarch : Cfg :=
  { name := "m", granularity := "monthly", reqMonth := ["03"] }

/-- Provider behavior for the multi-dataset scenario: the yearly request of
dataset A fails with a structured error that is not a not-available-yet
message; everything else succeeds. -/
def oracleFatalA (k : String) : Outcome :=
  if k == "A/2020.grib" then Outcome.fatalStructured else Outcome.success

/-- Dataset A of the multi-dataset scenario. -/
def cfgA : Cfg := { name := "A", granularity := "yearly" }

/-- Dataset B of the multi-dataset scenario. -/
def cfgB : Cfg := { name := "B", granularity := "yearly" }

/-! Helper lemmas about the scheduler core, shared by several claims. -/

/-- Processing one unit either leaves storage unchanged or conses the unit
key and its sidecar key onto it. -/
theorem processUnit_storage (o : String → Outcome) (fe : Bool) (st : List String)
    (k : String) :
    (processUnit o fe st k).2.1 = st ∨
      (processUnit o fe st k).2.1 = k :: (k ++ ".json") :: st := by
  unfold processUnit
  split
  · exact Or.inl rfl
  · cases safe_retrieve (o k) fe with
    | ok => exact Or.inr rfl
    | returnedFalse =>
        by_cases hfe : fe = true
        · simp [hfe]
        · simp [hfe]
    | raisedHTTPError => exact Or.inl rfl
    | raisedRuntimeError => exact Or.inl rfl

/-- Keys committed to storage are never removed by processing a unit. -/
theorem processUnit_keeps (o : String → Outcome) (fe : Bool) (st : List String)
    (k x : String) (hx : x ∈ st) : x ∈ (processUnit o fe st k).2.1 := by
  rcases processUnit_storage o fe st k with h | h <;> rw [h] <;> simp [hx]

/-- Keys committed to storage survive a whole flat download loop. -/
theorem runUnits_keeps (o : String → Outcome) (fe : Bool) (x : String) :
    ∀ ks st, x ∈ st → x ∈ (runUnits o fe st ks).2.1 := by
  intro ks
  induction ks with
  | nil => intro st hx; simpa [runUnits] using hx
  | cons k rest ih =>
      intro st hx
      simp only [runUnits]
      split
      · exact ih _ (processUnit_keeps o fe st k x hx)
      · exact processUnit_keeps o fe st k x hx
      · exact processUnit_keeps o fe st k x hx

/-- A call event emitted by processing one unit names that unit, and only a
unit whose skip test was false is called. -/
theorem processUnit_call_mem (o : String → Outcome) (fe : Bool) (st : List String)
    (k u : String) (h : Ev.call u ∈ (processUnit o fe st k).1) :
    u = k ∧ (st.contains k || already_requested st k) = false := by
  unfold processUnit at h
  split at h
  · simp at h
  · rename_i hskip
    refine ⟨?_, by simpa using hskip⟩
    rcases hr : safe_retrieve (o k) fe with _ | _ | _ | _ <;> rw [hr] at h
    · simpa using h
    · cases fe <;> simpa using h
    · simpa using h
    · simpa using h

/-- Storage membership stated through the Boolean contains query used by the
skip test. -/
theorem contains_iff_mem_str (st : List String) (x : String) :
    st.contains x = true ↔ x ∈ st := by
  simp

/-- A unit whose primary or sidecar key is already committed is never called
by a flat download loop, whatever the oracle, the policy and the remaining
key list. -/
theorem runUnits_no_call (o : String → Outcome) (fe : Bool) (k : String) :
    ∀ ks st, (k ∈ st ∨ (k ++ ".json") ∈ st) →
      Ev.call k ∉ (runUnits o fe st ks).1 := by
  intro ks
  induction ks with
  | nil => intro st _ h; simp [runUnits] at h
  | cons k1 rest ih =>
      intro st hdone h
      have hnotp : Ev.call k ∉ (processUnit o fe st k1).1 := by
        intro hp
        rcases processUnit_call_mem o fe st k1 k hp with ⟨rfl, hcond⟩
        rcases Bool.or_eq_false_iff.mp hcond with ⟨h1, h2⟩
        rcases hdone with hm | hm
        · rw [(contains_iff_mem_str st k).mpr hm] at h1; cases h1
        · unfold already_requested at h2
          rw [(contains_iff_mem_str st (k ++ ".json")).mpr hm] at h2; cases h2
      simp only [runUnits] at h
      split at h
      · rcases List.mem_append.mp h with h1 | h2
        · exact hnotp h1
        · have hkeep : k ∈ (processUnit o fe st k1).2.1 ∨
              (k ++ ".json") ∈ (processUnit o fe st k1).2.1 := by
            rcases hdone with hm | hm
            · exact Or.inl (processUnit_keeps o fe st k1 k hm)
            · exact Or.inr (processUnit_keeps o fe st k1 (k ++ ".json") hm)
          exact ih _ hkeep h2
      · exact hnotp h
      · exact hnotp h

/-- Same absence of calls through the year-nested monthly loop. -/
theorem runMonthlyYears_no_call (o : String → Outcome) (fe : Bool) (k : String) :
    ∀ yks st, (k ∈ st ∨ (k ++ ".json") ∈ st) →
      Ev.call k ∉ (runMonthlyYears o fe st yks).1 := by
  intro yks
  induction yks with
  | nil => intro st _ h; simp [runMonthlyYears] at h
  | cons yk rest ih =>
      intro st hdone h
      have hkeep : k ∈ (runUnits o fe st yk).2.1 ∨
          (k ++ ".json") ∈ (runUnits o fe st yk).2.1 := by
        rcases hdone with hm | hm
        · exact Or.inl (runUnits_keeps o fe k yk st hm)
        · exact Or.inr (runUnits_keeps o fe (k ++ ".json") yk st hm)
      simp only [runMonthlyYears] at h
      split at h
      · exact runUnits_no_call o fe k yk st hdone h
      · rcases List.mem_append.mp h with h1 | h2
        · exact runUnits_no_call o fe k yk st hdone h1
        · exact ih _ hkeep h2

/-- Every processed unit leaves the per-unit loop control at continue when
fail_on_error is false: safe_retrieve then never raises. -/
theorem processUnit_false_next (o : String → Outcome) (st : List String)
    (k : String) : (processUnit o false st k).2.2 = Ctl.next := by
  unfold processUnit
  split
  · rfl
  · cases h : o k <;> simp [safe_retrieve, h]

/-- A flat loop with fail_on_error false always drains its key list and ends
completed. -/
theorem runUnits_false_completed (o : String → Outcome) :
    ∀ ks st, (runUnits o false st ks).2.2 = RunResult.completed := by
  intro ks
  induction ks with
  | nil => intro st; rfl
  | cons k rest ih =>
      intro st
      simp only [runUnits]
      split
      · exact ih _
      · rename_i heq; rw [processUnit_false_next] at heq; cases heq
      · rename_i heq; rw [processUnit_false_next] at heq; cases heq

/-- The monthly nested loop with fail_on_error false also always ends
completed. -/
theorem runMonthlyYears_false_completed (o : String → Outcome) :
    ∀ yks st, (runMonthlyYears o false st yks).2.2 = RunResult.completed := by
  intro yks
  induction yks with
  | nil => intro st; rfl
  | cons yk rest ih =>
      intro st
      simp only [runMonthlyYears]
      split
      · rename_i heq; rw [runUnits_false_completed] at heq; cases heq
      · exact ih _

/-! Claim C10: in the per-unit success path shared by the three granularity
branches, the sidecar metadata key is committed strictly before the primary
artifact key. -/

/-- C10: for every unit whose fetch succeeds and whose skip test is false,
the per-unit body used by all three granularity branches emits exactly the
provider call, then the save of the sidecar key, then the save of the
primary key: the sidecar commit precedes the primary commit, so a crash
between the two leaves only the sidecar, which already_requested treats as
done. -/
theorem processUnit_commits_sidecar_before_primary (oracle : String → Outcome)
    (fe : Bool) (st : List String) (key : String)
    (hnd : (st.contains key || already_requested st key) = false)
    (hs : oracle key = Outcome.success) :
    processUnit oracle fe st key =
      ([Ev.call key, Ev.save (key ++ ".json"), Ev.save key],
       key :: (key ++ ".json") :: st, Ctl.next) ∧
    List.Sublist [Ev.save (key ++ ".json"), Ev.save key]
      (processUnit oracle fe st key).1 := by
  have hmain : processUnit oracle fe st key =
      ([Ev.call key, Ev.save (key ++ ".json"), Ev.save key],
       key :: (key ++ ".json") :: st, Ctl.next) := by
    unfold processUnit
    rw [hnd, hs]
    rfl
  refine ⟨hmain, ?_⟩
  rw [hmain]
  exact List.Sublist.cons _ (List.Sublist.refl _)

/-- Witness for C10 at a concrete input. -/
theorem processUnit_commits_sidecar_before_primary_witness :
    processUnit oracleAllOk true [] "d/2020.grib" =
      ([Ev.call "d/2020.grib", Ev.save "d/2020.grib.json", Ev.save "d/2020.grib"],
       ["d/2020.grib", "d/2020.grib.json"], Ctl.next) :=
  (processUnit_commits_sidecar_before_primary oracleAllOk true [] "d/2020.grib"
    rfl rfl).1

/-! Claim C8: monthly range encoding spans the 1st to the last calendar day
of the month with correct leap-year handling. -/

/-- C8: for every template and monthly unit, range encoding emits the
interval from day 01 to calendar.monthrange(year, month)[1]; at the
leap-year unit (2024, 02) the end date is 2024-02-29 and at (2023, 02) it is
2023-02-28, and the underlying month lengths are 29 and 28. -/
theorem build_monthly_request_range_interval (tmpl : Request) :
    (∀ y m, (build_monthly_request tmpl y m true).date =
      [toString y ++ "-" ++ pad2 m ++ "-01/" ++
       toString y ++ "-" ++ pad2 m ++ "-" ++ pad2 (daysInMonth y m)]) ∧
    (build_monthly_request tmpl 2024 2 true).date = ["2024-02-01/2024-02-29"] ∧
    (build_monthly_request tmpl 2023 2 true).date = ["2023-02-01/2023-02-28"] ∧
    daysInMonth 2024 2 = 29 ∧ daysInMonth 2023 2 = 28 := by
  refine ⟨fun y m => by simp [build_monthly_request], ?_, ?_, rfl, rfl⟩
  · simp [build_monthly_request]
    rfl
  · simp [build_monthly_request]
    rfl

/-! Claim C1: the code is expected to stop the whole run at a
not-available-yet answer when fail_on_error is true, but in the monthly
branch the break statement leaves only the inner month loop, so the next
year is still attempted. -/

/-- C1: evaluation at the failing input. With monthly granularity, years
2020 and 2021, clock 2021-01-05 and fail_on_error true, the provider answers
not-available-yet for unit (2020, 01); the run nevertheless calls the
provider for the chronologically later unit (2021, 01) and commits it,
because the break leaves only the month loop of year 2020. -/
theorem monthly_break_attempts_later_year :
    cfgMonthlyDs.failOnError = true ∧
    oracleNyaJan2020 "ds/2020/01.grib" = Outcome.notYetAvailable ∧
    (incremental_download cfgMonthlyDs [2020, 2021] ⟨2021, 1, 5⟩ oracleNyaJan2020 []).1 =
      [Ev.call "ds/2020/01.grib", Ev.call "ds/2021/01.grib",
       Ev.save "ds/2021/01.grib.json", Ev.save "ds/2021/01.grib"] ∧
    tuLt ⟨2020, some 1, none⟩ ⟨2021, some 1, none⟩ := by
  decide

/-! Claim C2: a structured fatal error with fail_on_error true aborts the run
and propagates; an HTTP error without a structured body is re-raised as
HTTPError, which the download loop catches with break, so it halts instead of
propagating. -/

/-- C2 counterexample: a yearly run whose only request fails with an
unstructured transport error under fail_on_error true ends halted, not
aborted; no error escapes incremental_download. -/
theorem transport_error_halts_not_aborts :
    (incremental_download cfgYearlyD [2020] ⟨2020, 3, 1⟩ oracleTransport []).2.2 =
      RunResult.halted ∧
    (incremental_download cfgYearlyD [2020] ⟨2020, 3, 1⟩ oracleTransport []).2.2 ≠
      RunResult.aborted ∧
    oracleTransport "d/2020.grib" = Outcome.fatalTransport ∧
    cfgYearlyD.failOnError = true := by
  decide

/-! Claim C4: the generated TimeUnit sequence is claimed strictly increasing
for every granularity, including monthly with an arbitrarily ordered month
list; the monthly loop follows the template order of the month list. -/

/-- C4 counterexample: a monthly month list given as 02, 01 yields the units
in template order (2020, 02) then (2020, 01), which is not strictly
increasing. -/
theorem monthly_template_order_not_sorted :
    ¬ List.Pairwise tuLt (monthlyUnits 2020 ⟨2020, 6, 15⟩ ["02", "01"]) ∧
    monthlyUnits 2020 ⟨2020, 6, 15⟩ ["02", "01"] =
      [⟨2020, some 2, none⟩, ⟨2020, some 1, none⟩] := by
  decide

/-! Claim C5: the min_date clamp is claimed to bound enumeration for every
granularity; the yearly and monthly loops start from min(years) and ignore
the clamped start date, which only the daily branch consumes. -/

/-- C5 counterexample: a yearly run with min_date 2021-06-01 still calls the
provider for year 2020, a unit whose whole extent lies before min_date. -/
theorem yearly_ignores_min_date :
    cfgYearlyMinDate.minDate = some ⟨2021, 6, 1⟩ ∧
    dateLt ⟨2020, 12, 31⟩ ⟨2021, 6, 1⟩ ∧
    Ev.call "d/2020.grib" ∈
      (incremental_download cfgYearlyMinDate [2020, 2021] ⟨2021, 8, 1⟩ oracleAllOk []).1 := by
  decide

/-! Claim C6: monthly enumeration is claimed independent of the configured
month set; the monthly loop iterates exactly the template month list. -/

/-- C6 counterexample: with the month list restricted to 03, the monthly
enumeration of year 2020 up to 2020-06-15 yields only (2020, 03); the
in-range unit (2020, 01) is neither enumerated nor called in the full run. -/
theorem monthly_respects_month_set :
    monthlyUnits 2020 ⟨2020, 6, 15⟩ ["03"] = [⟨2020, some 3, none⟩] ∧
    (⟨2020, some 1, none⟩ : TimeUnit) ∉ monthlyUnits 2020 ⟨2020, 6, 15⟩ ["03"] ∧
    Ev.call "m/2020/01.grib" ∉
      (incremental_download cfgMonthlyMarch [2020] ⟨2020, 6, 15⟩ oracleAllOk []).1 := by
  decide

/-! Claim C9: main.py runs the datasets in one unguarded loop, so an abort in
one dataset ends the invocation and later datasets are not run. -/

/-- C9 counterexample: datasets A and B are both selected; the run of A
aborts with a structured fatal error and the loop never reaches B. -/
theorem abort_in_first_dataset_stops_second :
    (mainLoop [("A", cfgA), ("B", cfgB)] [2020] ⟨2020, 5, 1⟩ oracleFatalA [] ["A", "B"]).1 =
      ["A"] ∧
    "B" ∉ (mainLoop [("A", cfgA), ("B", cfgB)] [2020] ⟨2020, 5, 1⟩ oracleFatalA [] ["A", "B"]).1 ∧
    (incremental_download cfgA [2020] ⟨2020, 5, 1⟩ oracleFatalA []).2.2 =
      RunResult.aborted := by
  decide

/-! Claim C3: a unit whose primary artifact key or sidecar metadata key
exists in storage is skipped without a provider call; the sidecar alone
suffices. -/

/-- C3: when storage holds the primary key or the sidecar key of a unit, the
per-unit body skips it with no event and unchanged storage, and no flat or
monthly loop starting from that storage ever calls the provider for it. -/
theorem done_unit_skipped_no_call (oracle : String → Outcome) (fe : Bool)
    (st : List String) (k : String)
    (hdone : st.contains k = true ∨ st.contains (k ++ ".json") = true) :
    processUnit oracle fe st k = ([], st, Ctl.next) ∧
    (∀ ks, Ev.call k ∉ (runUnits oracle fe st ks).1) ∧
    (∀ yks, Ev.call k ∉ (runMonthlyYears oracle fe st yks).1) := by
  have hmem : k ∈ st ∨ (k ++ ".json") ∈ st := by
    rcases hdone with h | h
    · exact Or.inl ((contains_iff_mem_str st k).mp h)
    · exact Or.inr ((contains_iff_mem_str st (k ++ ".json")).mp h)
  refine ⟨?_, fun ks => runUnits_no_call oracle fe k ks st hmem,
    fun yks => runMonthlyYears_no_call oracle fe k yks st hmem⟩
  have hcond : (st.contains k || already_requested st k) = true := by
    unfold already_requested
    rcases hdone with h | h
    · rw [h]; rfl
    · rw [h, Bool.or_true]
  unfold processUnit
  rw [hcond]
  rfl

/-- Witness for C3: storage holding only the sidecar key, the unit is
skipped. -/
theorem done_unit_skipped_no_call_witness :
    processUnit oracleAllOk true ["d/2020.grib.json"] "d/2020.grib" =
      ([], ["d/2020.grib.json"], Ctl.next) :=
  (done_unit_skipped_no_call oracleAllOk true ["d/2020.grib.json"] "d/2020.grib"
    (Or.inr (by decide))).1

/-! Claim C7: a not-available-yet answer with fail_on_error false skips only
that unit; the run stays in its loop, commits nothing for the unit, ends
completed and signals no abort. -/

/-- C7: with fail_on_error false, a unit answered not-available-yet produces
exactly one provider call, no commit and unchanged storage, and the loop goes
on to the next unit; moreover every flat loop and every monthly nested loop
run with fail_on_error false ends completed, never halted or aborted. -/
theorem nya_without_fail_skips_only (oracle : String → Outcome)
    (st : List String) (k : String)
    (hnd : (st.contains k || already_requested st k) = false)
    (hnya : oracle k = Outcome.notYetAvailable) :
    processUnit oracle false st k = ([Ev.call k], st, Ctl.next) ∧
    (∀ ks st0, (runUnits oracle false st0 ks).2.2 = RunResult.completed) ∧
    (∀ yks st0, (runMonthlyYears oracle false st0 yks).2.2 = RunResult.completed) := by
  refine ⟨?_, fun ks st0 => runUnits_false_completed oracle ks st0,
    fun yks st0 => runMonthlyYears_false_completed oracle yks st0⟩
  unfold processUnit
  rw [hnd, hnya]
  rfl

/-- Witness for C7 at a concrete input. -/
theorem nya_without_fail_skips_only_witness :
    processUnit (fun _ => Outcome.notYetAvailable) false [] "d/2022.grib" =
      ([Ev.call "d/2022.grib"], [], Ctl.next) :=
  (nya_without_fail_skips_only (fun _ => Outcome.notYetAvailable) [] "d/2022.grib"
    rfl rfl).1

/-- C2 amended: with fail_on_error true, a structured fatal answer makes the
run abort at that unit, the RuntimeError propagating through the inner and
outer loops to the caller; an unstructured transport error is re-raised as
HTTPError, which the loop catches, so the run halts at that unit without
propagating. -/
theorem fatal_classification_policy (oracle : String → Outcome)
    (st : List String) (k : String) (ks : List String)
    (hnd : (st.contains k || already_requested st k) = false) :
    (oracle k = Outcome.fatalStructured →
       runUnits oracle true st (k :: ks) = ([Ev.call k], st, RunResult.aborted)) ∧
    (oracle k = Outcome.fatalTransport →
       runUnits oracle true st (k :: ks) = ([Ev.call k], st, RunResult.halted)) ∧
    (∀ yks, (runUnits oracle true st (k :: ks)).2.2 = RunResult.aborted →
       (runMonthlyYears oracle true st ((k :: ks) :: yks)).2.2 =
         RunResult.aborted) := by
  refine ⟨fun h => ?_, fun h => ?_, fun yks h => ?_⟩
  · have hp : processUnit oracle true st k = ([Ev.call k], st, Ctl.abort) := by
      unfold processUnit; rw [hnd, h]; rfl
    simp [runUnits, hp]
  · have hp : processUnit oracle true st k = ([Ev.call k], st, Ctl.stop) := by
      unfold processUnit; rw [hnd, h]; rfl
    simp [runUnits, hp]
  · simp only [runMonthlyYears]
    rw [h]

/-- Witness for the amended C2 at a concrete input. -/
theorem fatal_classification_policy_witness :
    runUnits (fun _ => Outcome.fatalStructured) true [] ["d/2020.grib"] =
      ([Ev.call "d/2020.grib"], [], RunResult.aborted) :=
  (fatal_classification_policy (fun _ => Outcome.fatalStructured) []
    "d/2020.grib" [] rfl).1 rfl

/-! Order lemmas on dates and generated unit sequences. -/

/-- Tomorrow is strictly later. -/
theorem dateLt_nextDate (d : Date) : dateLt d (nextDate d) := by
  unfold nextDate
  split
  · exact Or.inr ⟨rfl, Or.inr ⟨rfl, Nat.lt_succ_self _⟩⟩
  · split
    · exact Or.inr ⟨rfl, Or.inl (Nat.lt_succ_self _)⟩
    · exact Or.inl (Nat.lt_succ_self _)

/-- Transitivity of the strict date order. -/
theorem dateLt_trans {a b c : Date} (h1 : dateLt a b) (h2 : dateLt b c) :
    dateLt a c := by
  unfold dateLt at h1 h2 ⊢
  omega

/-- A weak bound followed by a strict step stays strict. -/
theorem dateLe_dateLt_trans {a b c : Date} (h1 : dateLe a b) (h2 : dateLt b c) :
    dateLt a c := by
  rcases h1 with h | rfl
  · exact dateLt_trans h h2
  · exact h2

/-- Adding more days gives a strictly later date. -/
theorem addDays_strict_mono (s : Date) : ∀ {n m : Nat}, n < m →
    dateLt (addDays s n) (addDays s m) := by
  intro n m
  induction m with
  | zero => intro h; exact absurd h (Nat.not_lt_zero n)
  | succ mm ih =>
      intro h
      rcases Nat.lt_succ_iff_lt_or_eq.mp h with h2 | rfl
      · exact dateLt_trans (ih h2) (dateLt_nextDate _)
      · exact dateLt_nextDate _

/-- A date never precedes itself plus a day count. -/
theorem dateLe_addDays (s : Date) (n : Nat) : dateLe s (addDays s n) := by
  induction n with
  | zero => exact Or.inr rfl
  | succ m ih => exact Or.inl (dateLe_dateLt_trans ih (dateLt_nextDate _))

/-- The generated day sequence is strictly increasing. -/
theorem daterange_pairwise (s e : Date) : List.Pairwise dateLt (daterange s e) := by
  unfold daterange
  exact (List.pairwise_map).mpr
    ((List.pairwise_lt_range _).imp (fun h => addDays_strict_mono s h))

/-- Date order transfers to the unit order on fully specified units. -/
theorem tuLt_of_dateLt {d e : Date} (h : dateLt d e) :
    tuLt ⟨d.year, some d.month, some d.day⟩ ⟨e.year, some e.month, some e.day⟩ := by
  unfold dateLt at h
  unfold tuLt TimeUnit.mo TimeUnit.da
  simpa using h

/-! Claim C4, amended: the yearly and daily unit sequences are strictly
increasing; the monthly sequence follows the template order of the month
list, so it is strictly increasing exactly when the parsed month list is. -/

/-- C4 amended: the yearly and daily enumerations are strictly increasing
under the (year, month, day) order with wildcards minimal, for every
configured month and day list; the monthly enumeration is strictly
increasing provided the configured month list is strictly increasing under
its numeric value, as the default full list is. -/
theorem units_sorted_per_granularity (startYear : Nat) (today startDate : Date)
    (months days : List String) :
    List.Pairwise tuLt (yearlyUnits startYear today) ∧
    (List.Pairwise (fun a b => toNatD a < toNatD b) months →
       List.Pairwise tuLt (monthlyUnits startYear today months)) ∧
    List.Pairwise tuLt (dailyUnits startDate today months days) := by
  refine ⟨?_, fun hm => ?_, ?_⟩
  · unfold yearlyUnits
    refine (List.pairwise_map).mpr ?_
    have h1 : List.Pairwise (· < ·)
        ((List.range' startYear (today.year + 1 - startYear)).filter
          (fun y => !(today.year < y))) :=
      List.Pairwise.sublist (List.filter_sublist _) (List.pairwise_lt_range' _ _)
    exact h1.imp (fun h => Or.inl h)
  · unfold monthlyUnits
    rw [List.flatMap_def]
    refine (List.pairwise_flatten).mpr ⟨?_, ?_⟩
    · intro l hl
      rcases List.mem_map.mp hl with ⟨y, _, rfl⟩
      refine (List.pairwise_map).mpr ?_
      exact (List.Pairwise.sublist (List.filter_sublist _) hm).imp
        (fun h => Or.inr ⟨rfl, Or.inl h⟩)
    · refine (List.pairwise_map).mpr ?_
      refine (List.pairwise_lt_range' startYear (today.year + 1 - startYear)).imp ?_
      intro y z hyz x hx w hw
      rcases List.mem_map.mp hx with ⟨m1, _, rfl⟩
      rcases List.mem_map.mp hw with ⟨m2, _, rfl⟩
      exact Or.inl hyz
  · unfold dailyUnits
    refine (List.pairwise_map).mpr ?_
    have h4 : List.Pairwise dateLt
        ((daterange startDate today).filter
          (fun d => months.contains (pad2 d.month) && days.contains (pad2 d.day))) :=
      List.Pairwise.sublist (List.filter_sublist _) (daterange_pairwise startDate today)
    exact h4.imp (fun h => tuLt_of_dateLt h)

/-- Witness for the amended C4 at concrete inputs: the month list 12, 01 is
not numerically sorted, yet the yearly and daily conjuncts apply to it
unconditionally. -/
theorem units_sorted_per_granularity_witness :
    List.Pairwise tuLt (yearlyUnits 2020 ⟨2021, 1, 2⟩) ∧
    (List.Pairwise (fun a b => toNatD a < toNatD b) ["12", "01"] →
       List.Pairwise tuLt (monthlyUnits 2020 ⟨2021, 1, 2⟩ ["12", "01"])) ∧
    List.Pairwise tuLt (dailyUnits ⟨2020, 12, 30⟩ ⟨2021, 1, 2⟩ ["12", "01"] ["01", "30", "31"]) :=
  units_sorted_per_granularity 2020 ⟨2021, 1, 2⟩ ⟨2020, 12, 30⟩
    ["12", "01"] ["01", "30", "31"]

/-! Claim C5, amended: the clamped start date max(Jan 1 of the earliest
year, min_date) is consumed only by the daily branch, whose enumeration
never yields a unit before it. -/

/-- C5 amended: with min_date set and later than January 1 of the earliest
configured year, the daily enumeration starts at min_date and no enumerated
daily unit is chronologically before it; the yearly and monthly branches
iterate from the earliest configured year and do not consume the clamp. -/
theorem daily_units_respect_min_date (sy : Nat) (md todayD : Date)
    (months days : List String) (u : TimeUnit)
    (hclamp : dateLt ⟨sy, 1, 1⟩ md)
    (hu : u ∈ dailyUnits (effectiveStart sy (some md)) todayD months days) :
    dateLe md ⟨u.year, u.mo, u.da⟩ := by
  have hes : effectiveStart sy (some md) = md := by
    unfold effectiveStart
    simp [hclamp]
  rw [hes] at hu
  unfold dailyUnits at hu
  rcases List.mem_map.mp hu with ⟨d, hd, rfl⟩
  have hd2 : d ∈ daterange md todayD := (List.mem_filter.mp hd).1
  unfold daterange at hd2
  rcases List.mem_map.mp hd2 with ⟨n, _, rfl⟩
  simpa [TimeUnit.mo, TimeUnit.da] using dateLe_addDays md n

/-- Witness for the amended C5 at a concrete input. -/
theorem daily_units_respect_min_date_witness :
    dateLe ⟨2021, 6, 1⟩ ⟨2021, 6, 15⟩ :=
  daily_units_respect_min_date 2020 ⟨2021, 6, 1⟩ ⟨2021, 8, 1⟩ ["06"] ["15"]
    ⟨2021, some 6, some 15⟩ (by decide) (by decide)

/-! Claim C6, amended: the monthly enumeration yields one unit per (year, m)
pair for the configured months m only, capped at the current month in the
current year; the default normalization makes that all twelve months when
the template configures none. -/

/-- C6 amended: a monthly unit (y, m) is enumerated exactly when y lies in
the configured year range, m is the numeric value of one of the configured
template month strings, and (y, m) does not exceed the current month of the
current year. -/
theorem monthly_units_membership (startYear : Nat) (today : Date)
    (months : List String) (y m : Nat) :
    (⟨y, some m, none⟩ : TimeUnit) ∈ monthlyUnits startYear today months ↔
      (startYear ≤ y ∧ y ≤ today.year ∧
       (∃ ms ∈ months, toNatD ms = m) ∧ ¬(y = today.year ∧ today.month < m)) := by
  unfold monthlyUnits
  rw [List.mem_flatMap]
  constructor
  · rintro ⟨y', hy', hmem⟩
    rcases List.mem_map.mp hmem with ⟨ms, hms, heq⟩
    have hy2 := List.mem_range'_1.mp hy'
    rcases List.mem_filter.mp hms with ⟨hms1, hms2⟩
    have heq2 : y' = y ∧ toNatD ms = m := by simpa using heq
    obtain ⟨rfl, rfl⟩ := heq2
    simp at hms2
    refine ⟨by omega, by omega, ⟨ms, hms1, rfl⟩, by omega⟩
  · rintro ⟨h1, h2, ⟨ms, hms, rfl⟩, h4⟩
    refine ⟨y, List.mem_range'_1.mpr ⟨h1, by omega⟩, ?_⟩
    refine List.mem_map.mpr ⟨ms, List.mem_filter.mpr ⟨hms, ?_⟩, rfl⟩
    simp
    omega

/-! Claim C9, amended: within one invocation the dataset loop has no guard,
so an abort ends the whole loop; only a non-aborting run lets the next
dataset proceed, and only unknown names are skipped harmlessly. -/

/-- C9 amended: when the run of the next selected dataset aborts, the loop
of main ends at that dataset and later selections are never run; when it
does not abort, the loop records that dataset and continues with the rest on
the updated storage. -/
theorem abort_dependence_mainLoop (cfgs : List (String × Cfg)) (years : List Nat)
    (todayClock : Date) (oracle : String → Outcome) (st : List String)
    (n : String) (cfg : Cfg) (rest : List String)
    (hl : List.lookup n cfgs = some cfg) :
    ((incremental_download cfg years todayClock oracle st).2.2 = RunResult.aborted →
       mainLoop cfgs years todayClock oracle st (n :: rest) =
         ([n], (incremental_download cfg years todayClock oracle st).2.1, true)) ∧
    ((incremental_download cfg years todayClock oracle st).2.2 ≠ RunResult.aborted →
       (mainLoop cfgs years todayClock oracle st (n :: rest)).1 =
         n :: (mainLoop cfgs years todayClock oracle
           (incremental_download cfg years todayClock oracle st).2.1 rest).1) := by
  constructor
  · intro h
    simp [mainLoop, hl, h]
  · intro h
    rcases hres : (incremental_download cfg years todayClock oracle st).2.2 with _ | _ | _
    · simp [mainLoop, hl, hres]
    · simp [mainLoop, hl, hres]
    · exact absurd hres h

/-- Witness for the amended C9 at a concrete input. -/
theorem abort_dependence_mainLoop_witness :
    mainLoop [("A", cfgA), ("B", cfgB)] [2020] ⟨2020, 5, 1⟩ oracleFatalA [] ["A", "B"] =
      (["A"], (incremental_download cfgA [2020] ⟨2020, 5, 1⟩ oracleFatalA []).2.1, true) :=
  (abort_dependence_mainLoop [("A", cfgA), ("B", cfgB)] [2020] ⟨2020, 5, 1⟩
    oracleFatalA [] "A" cfgA ["B"] rfl).1 (by decide)

end Copernicus
